import Mathlib

/-!
Verification of the pose-detection program `pose_detector.py`.

The program's core is `detect_pose`, a deterministic cascade of geometric
predicates over a MediaPipe landmark set; the peripheral `update_frame`
is a timer-driven tick of the capture/classify/display loop.

The shallow embedding below models coordinates as rationals (the Python
code computes with binary floats, but every comparison and threshold in
the cascade is exact decimal arithmetic, so the decision structure is
faithfully represented over ℚ), a landmark set as a total map from the
MediaPipe `PoseLandmark` enumeration to (x, y, visibility) triples, and
the cascade as nested if-then-else over named conditions transcribed
line by line from the source.
-/

namespace PoseDetector

/-- A single landmark as produced by MediaPipe: normalized coordinates
with a visibility score (`landmark.x`, `landmark.y`, `landmark.visibility`). -/
structure Landmark where
  x : ℚ
  y : ℚ
  visibility : ℚ
deriving DecidableEq, Repr

/-- The MediaPipe `mp.solutions.pose.PoseLandmark` enumeration (33 joints).
`detect_pose` reads only the ten wrist/elbow/shoulder/hip/knee entries. -/
inductive PoseLandmark where
  | NOSE | LEFT_EYE_INNER | LEFT_EYE | LEFT_EYE_OUTER
  | RIGHT_EYE_INNER | RIGHT_EYE | RIGHT_EYE_OUTER
  | LEFT_EAR | RIGHT_EAR | MOUTH_LEFT | MOUTH_RIGHT
  | LEFT_SHOULDER | RIGHT_SHOULDER | LEFT_ELBOW | RIGHT_ELBOW
  | LEFT_WRIST | RIGHT_WRIST | LEFT_PINKY | RIGHT_PINKY
  | LEFT_INDEX | RIGHT_INDEX | LEFT_THUMB | RIGHT_THUMB
  | LEFT_HIP | RIGHT_HIP | LEFT_KNEE | RIGHT_KNEE
  | LEFT_ANKLE | RIGHT_ANKLE | LEFT_HEEL | RIGHT_HEEL
  | LEFT_FOOT_INDEX | RIGHT_FOOT_INDEX
deriving DecidableEq, Repr

/-- A landmark set: `landmarks.landmark[j]` for each joint `j`. -/
def LandmarkSet : Type := PoseLandmark → Landmark

/-- `avg_shoulder_y = (left_shoulder.y + right_shoulder.y) / 2` (line 67). -/
def avg_shoulder_y (lm : LandmarkSet) : ℚ :=
  ((lm .LEFT_SHOULDER).y + (lm .RIGHT_SHOULDER).y) / 2

/-- `avg_hip_y = (left_hip.y + right_hip.y) / 2` (line 68). -/
def avg_hip_y (lm : LandmarkSet) : ℚ :=
  ((lm .LEFT_HIP).y + (lm .RIGHT_HIP).y) / 2

/-- `avg_knee_y = (left_knee.y + right_knee.y) / 2` (line 69). -/
def avg_knee_y (lm : LandmarkSet) : ℚ :=
  ((lm .LEFT_KNEE).y + (lm .RIGHT_KNEE).y) / 2

/-- Condition of the `"T-Pose"` branch (line 72). -/
def tPoseCond (lm : LandmarkSet) : Prop :=
  |(lm .LEFT_WRIST).y - (lm .LEFT_ELBOW).y| < 0.1 ∧
  |(lm .RIGHT_WRIST).y - (lm .RIGHT_ELBOW).y| < 0.1 ∧
  |(lm .LEFT_WRIST).y - (lm .LEFT_SHOULDER).y| < 0.1 ∧
  |(lm .RIGHT_WRIST).y - (lm .RIGHT_SHOULDER).y| < 0.1

/-- Condition of the `"Heart"` branch (line 76).  In the Python source the
two trailing negations each bind to a single comparison:
`not abs(left_wrist.x - left_elbow.x) < 0.1 and not abs(right_wrist.x - right_elbow.x) < 0.1`. -/
def heartCond (lm : LandmarkSet) : Prop :=
  |(lm .LEFT_WRIST).x - (lm .RIGHT_WRIST).x| < 0.3 ∧
  (lm .LEFT_WRIST).y < (lm .LEFT_ELBOW).y ∧
  (lm .RIGHT_WRIST).y < (lm .RIGHT_ELBOW).y ∧
  (lm .LEFT_WRIST).y < (lm .LEFT_SHOULDER).y ∧
  (lm .RIGHT_WRIST).y < (lm .RIGHT_SHOULDER).y ∧
  ¬ |(lm .LEFT_WRIST).x - (lm .LEFT_ELBOW).x| < 0.1 ∧
  ¬ |(lm .RIGHT_WRIST).x - (lm .RIGHT_ELBOW).x| < 0.1

/-- Condition of the `"Hands Up"` branch (line 80). -/
def handsUpCond (lm : LandmarkSet) : Prop :=
  (lm .LEFT_WRIST).y < (lm .LEFT_ELBOW).y ∧
  (lm .RIGHT_WRIST).y < (lm .RIGHT_ELBOW).y ∧
  (lm .LEFT_WRIST).y < (lm .LEFT_SHOULDER).y ∧
  (lm .RIGHT_WRIST).y < (lm .RIGHT_SHOULDER).y

/-- Condition of the `"Waving"` branch (line 84). -/
def wavingCond (lm : LandmarkSet) : Prop :=
  ((lm .LEFT_WRIST).y < (lm .LEFT_ELBOW).y ∨
   (lm .RIGHT_WRIST).y < (lm .RIGHT_ELBOW).y) ∧
  ((lm .LEFT_WRIST).y < (lm .LEFT_SHOULDER).y ∨
   (lm .RIGHT_WRIST).y < (lm .RIGHT_SHOULDER).y)

/-- Condition of the `"Folded Hands"` branch (line 88). -/
def foldedHandsCond (lm : LandmarkSet) : Prop :=
  |(lm .LEFT_WRIST).x - (lm .RIGHT_WRIST).x| < 0.05 ∧
  (lm .LEFT_WRIST).y < (lm .LEFT_ELBOW).y ∧
  (lm .RIGHT_WRIST).y < (lm .RIGHT_ELBOW).y ∧
  (lm .LEFT_WRIST).y > (lm .LEFT_SHOULDER).y

/-- Condition of the `"Arms Crossed"` branch (line 92). -/
def armsCrossedCond (lm : LandmarkSet) : Prop :=
  (lm .LEFT_WRIST).x > (lm .RIGHT_SHOULDER).x ∧
  (lm .RIGHT_WRIST).x < (lm .LEFT_SHOULDER).x ∧
  (lm .LEFT_ELBOW).y > (lm .LEFT_WRIST).y ∧
  (lm .RIGHT_ELBOW).y > (lm .RIGHT_WRIST).y

/-- Condition of the `"Bending Down"` branch (line 96). -/
def bendingDownCond (lm : LandmarkSet) : Prop :=
  |avg_shoulder_y lm - avg_hip_y lm| ≤ 0.2 ∧ avg_hip_y lm < avg_knee_y lm

/-- Condition of the `"Sitting"` branch (line 100). -/
def sittingCond (lm : LandmarkSet) : Prop :=
  avg_hip_y lm > avg_knee_y lm ∧ |(lm .LEFT_HIP).y - (lm .RIGHT_HIP).y| < 0.5

/-- Condition of the `"Standing"` branch (line 104). -/
def standingCond (lm : LandmarkSet) : Prop :=
  |(lm .LEFT_WRIST).y - (lm .LEFT_HIP).y| < 0.1 ∧
  |(lm .RIGHT_WRIST).y - (lm .RIGHT_HIP).y| < 0.1 ∧
  (lm .LEFT_ELBOW).x < (lm .LEFT_WRIST).x ∧
  (lm .RIGHT_ELBOW).x > (lm .RIGHT_WRIST).x

/-- Condition of the `"Hands on Hips"` branch (line 108). -/
def handsOnHipsCond (lm : LandmarkSet) : Prop :=
  |avg_shoulder_y lm - avg_hip_y lm| > 0.2 ∧ avg_hip_y lm < avg_knee_y lm

instance (lm : LandmarkSet) : Decidable (tPoseCond lm) := by
  unfold tPoseCond; infer_instance

instance (lm : LandmarkSet) : Decidable (heartCond lm) := by
  unfold heartCond; infer_instance

instance (lm : LandmarkSet) : Decidable (handsUpCond lm) := by
  unfold handsUpCond; infer_instance

instance (lm : LandmarkSet) : Decidable (wavingCond lm) := by
  unfold wavingCond; infer_instance

instance (lm : LandmarkSet) : Decidable (foldedHandsCond lm) := by
  unfold foldedHandsCond; infer_instance

instance (lm : LandmarkSet) : Decidable (armsCrossedCond lm) := by
  unfold armsCrossedCond; infer_instance

instance (lm : LandmarkSet) : Decidable (bendingDownCond lm) := by
  unfold bendingDownCond; infer_instance

instance (lm : LandmarkSet) : Decidable (sittingCond lm) := by
  unfold sittingCond; infer_instance

instance (lm : LandmarkSet) : Decidable (standingCond lm) := by
  unfold standingCond; infer_instance

instance (lm : LandmarkSet) : Decidable (handsOnHipsCond lm) := by
  unfold handsOnHipsCond; infer_instance


/-- `detect_pose` (lines 55-111): the ordered predicate cascade.  Each
branch condition is the correspondingly named `...Cond` above, transcribed
from the source line cited there; the first condition that holds decides
the returned label, and `"Unknown Pose"` is the fallback (line 111). -/
def detect_pose (lm : LandmarkSet) : String :=
  if tPoseCond lm then "T-Pose"
  else if heartCond lm then "Heart"
  else if handsUpCond lm then "Hands Up"
  else if wavingCond lm then "Waving"
  else if foldedHandsCond lm then "Folded Hands"
  else if armsCrossedCond lm then "Arms Crossed"
  else if bendingDownCond lm then "Bending Down"
  else if sittingCond lm then "Sitting"
  else if standingCond lm then "Standing"
  else if handsOnHipsCond lm then "Hands on Hips"
  else "Unknown Pose"

/-- The closed pose-label enumeration: the ten branch labels plus the
fallback, in cascade order. -/
def poseLabels : List String :=
  ["T-Pose", "Heart", "Hands Up", "Waving", "Folded Hands", "Arms Crossed",
   "Bending Down", "Sitting", "Standing", "Hands on Hips", "Unknown Pose"]

/-- The ten joints `detect_pose` reads (lines 56-65). -/
def usedJoints : List PoseLandmark :=
  [.LEFT_WRIST, .RIGHT_WRIST, .LEFT_ELBOW, .RIGHT_ELBOW,
   .LEFT_SHOULDER, .RIGHT_SHOULDER, .LEFT_HIP, .RIGHT_HIP,
   .LEFT_KNEE, .RIGHT_KNEE]

/-- The Heart condition as the specification words it: the final negation
scoped over the conjunction "each wrist nearly vertically aligned with its
own elbow", i.e. `¬ (|lwx - lex| < 0.1 ∧ |rwx - rex| < 0.1)` — whereas the
source code negates each comparison separately. -/
def heartSpecCond (lm : LandmarkSet) : Prop :=
  |(lm .LEFT_WRIST).x - (lm .RIGHT_WRIST).x| < 0.3 ∧
  (lm .LEFT_WRIST).y < (lm .LEFT_ELBOW).y ∧
  (lm .RIGHT_WRIST).y < (lm .RIGHT_ELBOW).y ∧
  (lm .LEFT_WRIST).y < (lm .LEFT_SHOULDER).y ∧
  (lm .RIGHT_WRIST).y < (lm .RIGHT_SHOULDER).y ∧
  ¬ (|(lm .LEFT_WRIST).x - (lm .LEFT_ELBOW).x| < 0.1 ∧
     |(lm .RIGHT_WRIST).x - (lm .RIGHT_ELBOW).x| < 0.1)

/-- The "neutral landmark set" shape described by the specification's
fallback scenario, with "far"/"by a large margin" read as a 0.2 gap:
wrists far below their elbows, elbows far below their shoulders, hips
above knees by a large margin (average hip y well below average knee y),
and shoulders far above hips. -/
def neutralClaimDescr (lm : LandmarkSet) : Prop :=
  (lm .LEFT_WRIST).y ≥ (lm .LEFT_ELBOW).y + 0.2 ∧
  (lm .RIGHT_WRIST).y ≥ (lm .RIGHT_ELBOW).y + 0.2 ∧
  (lm .LEFT_ELBOW).y ≥ (lm .LEFT_SHOULDER).y + 0.2 ∧
  (lm .RIGHT_ELBOW).y ≥ (lm .RIGHT_SHOULDER).y + 0.2 ∧
  avg_hip_y lm + 0.2 ≤ avg_knee_y lm ∧
  avg_shoulder_y lm + 0.2 ≤ avg_hip_y lm

/-- What a single `update_frame` tick does, abstracted to the three
observable effects relevant to the frame-loop specification. -/
structure TickEffects where
  classified : Option String
  displayed : Bool
  rescheduled : Bool
deriving DecidableEq, Repr

/-- `update_frame` (lines 113-162), as a function of the tick's inputs:
`ret` is the success flag of `cap.read()` and `pose_landmarks` the result
of landmark extraction.  Line 115-116 (`if not ret: return`) exits the
function before any later line runs — in particular before the
`label.after(10, update_frame)` call on line 162, so a failed read
produces no classification, no display update, and no rescheduling.
On a successful read, classification happens exactly when landmarks are
present (lines 123-125), the frame is always displayed (lines 139-160),
and line 162 always reschedules the next tick. -/
def update_frame (ret : Bool) (pose_landmarks : Option LandmarkSet) : TickEffects :=
  if !ret then ⟨none, false, false⟩
  else
    match pose_landmarks with
    | some lm => ⟨some (detect_pose lm), true, true⟩
    | none => ⟨none, true, true⟩

/-- Landmark set satisfying both the T-Pose and the Hands-Up conditions:
wrists at y = 0.3, elbows and shoulders at y = 0.35 (vertical deltas 0.05,
and wrists strictly above elbows and shoulders). -/
def lmBoth : LandmarkSet := fun j =>
  match j with
  | .LEFT_WRIST => ⟨0.2, 0.3, 1⟩
  | .RIGHT_WRIST => ⟨0.8, 0.3, 1⟩
  | .LEFT_ELBOW => ⟨0.3, 0.35, 1⟩
  | .RIGHT_ELBOW => ⟨0.7, 0.35, 1⟩
  | .LEFT_SHOULDER => ⟨0.4, 0.35, 1⟩
  | .RIGHT_SHOULDER => ⟨0.6, 0.35, 1⟩
  | .LEFT_HIP => ⟨0.45, 0.6, 1⟩
  | .RIGHT_HIP => ⟨0.55, 0.6, 1⟩
  | .LEFT_KNEE => ⟨0.45, 0.8, 1⟩
  | .RIGHT_KNEE => ⟨0.55, 0.8, 1⟩
  | _ => ⟨0.5, 0.5, 1⟩

/-- A genuinely neutral landmark set: wrists (y = 0.95) far below elbows
(y = 0.5), elbows far below shoulders (y = 0.2), hips level with knees
(both averages 0.7), wrists 0.25 away from hip height. -/
def lmNeutral : LandmarkSet := fun j =>
  match j with
  | .LEFT_WRIST => ⟨0.3, 0.95, 1⟩
  | .RIGHT_WRIST => ⟨0.7, 0.95, 1⟩
  | .LEFT_ELBOW => ⟨0.35, 0.5, 1⟩
  | .RIGHT_ELBOW => ⟨0.65, 0.5, 1⟩
  | .LEFT_SHOULDER => ⟨0.4, 0.2, 1⟩
  | .RIGHT_SHOULDER => ⟨0.6, 0.2, 1⟩
  | .LEFT_HIP => ⟨0.45, 0.7, 1⟩
  | .RIGHT_HIP => ⟨0.55, 0.7, 1⟩
  | .LEFT_KNEE => ⟨0.45, 0.7, 1⟩
  | .RIGHT_KNEE => ⟨0.55, 0.7, 1⟩
  | _ => ⟨0.5, 0.5, 1⟩

/-- A landmark set fitting the specification's "neutral case" description
(wrists far below elbows, elbows far below shoulders, hips well above
knees, shoulders far above hips): shoulders y = 0.1, elbows y = 0.35,
wrists y = 0.6, hips y = 0.5, knees y = 0.9. -/
def lmHipsAboveKnees : LandmarkSet := fun j =>
  match j with
  | .LEFT_WRIST => ⟨0.3, 0.6, 1⟩
  | .RIGHT_WRIST => ⟨0.7, 0.6, 1⟩
  | .LEFT_ELBOW => ⟨0.35, 0.35, 1⟩
  | .RIGHT_ELBOW => ⟨0.65, 0.35, 1⟩
  | .LEFT_SHOULDER => ⟨0.4, 0.1, 1⟩
  | .RIGHT_SHOULDER => ⟨0.6, 0.1, 1⟩
  | .LEFT_HIP => ⟨0.45, 0.5, 1⟩
  | .RIGHT_HIP => ⟨0.55, 0.5, 1⟩
  | .LEFT_KNEE => ⟨0.45, 0.9, 1⟩
  | .RIGHT_KNEE => ⟨0.55, 0.9, 1⟩
  | _ => ⟨0.5, 0.5, 1⟩

/-- A landmark set meeting the spec-scoped Heart condition but not the
code's: left wrist is vertically aligned with its elbow (|0.5 - 0.45| < 0.1)
while the right is not (|0.6 - 0.8| ≥ 0.1), wrists horizontally close and
raised above elbows and shoulders, T-Pose deltas all ≥ 0.1. -/
def lmHeartScope : LandmarkSet := fun j =>
  match j with
  | .LEFT_WRIST => ⟨0.5, 0.2, 1⟩
  | .RIGHT_WRIST => ⟨0.6, 0.2, 1⟩
  | .LEFT_ELBOW => ⟨0.45, 0.5, 1⟩
  | .RIGHT_ELBOW => ⟨0.8, 0.5, 1⟩
  | .LEFT_SHOULDER => ⟨0.4, 0.45, 1⟩
  | .RIGHT_SHOULDER => ⟨0.8, 0.45, 1⟩
  | .LEFT_HIP => ⟨0.45, 0.7, 1⟩
  | .RIGHT_HIP => ⟨0.55, 0.7, 1⟩
  | .LEFT_KNEE => ⟨0.45, 0.9, 1⟩
  | .RIGHT_KNEE => ⟨0.55, 0.9, 1⟩
  | _ => ⟨0.5, 0.5, 1⟩

/-- A landmark set where the Bending-Down condition holds (shoulders
y = 0.5, hips y = 0.6, knees y = 0.9) and no earlier branch matches
(wrists y = 0.95 hang far below elbows y = 0.7, arms uncrossed). -/
def lmBend : LandmarkSet := fun j =>
  match j with
  | .LEFT_WRIST => ⟨0.3, 0.95, 1⟩
  | .RIGHT_WRIST => ⟨0.7, 0.95, 1⟩
  | .LEFT_ELBOW => ⟨0.35, 0.7, 1⟩
  | .RIGHT_ELBOW => ⟨0.65, 0.7, 1⟩
  | .LEFT_SHOULDER => ⟨0.4, 0.5, 1⟩
  | .RIGHT_SHOULDER => ⟨0.6, 0.5, 1⟩
  | .LEFT_HIP => ⟨0.45, 0.6, 1⟩
  | .RIGHT_HIP => ⟨0.55, 0.6, 1⟩
  | .LEFT_KNEE => ⟨0.45, 0.9, 1⟩
  | .RIGHT_KNEE => ⟨0.55, 0.9, 1⟩
  | _ => ⟨0.5, 0.5, 1⟩

/-- T-Pose boundary set: wrists y = 0.4, elbows and shoulders y = 0.4999,
every required vertical delta exactly 0.0999. -/
def lmDelta0999 : LandmarkSet := fun j =>
  match j with
  | .LEFT_WRIST => ⟨0.2, 0.4, 1⟩
  | .RIGHT_WRIST => ⟨0.8, 0.4, 1⟩
  | .LEFT_ELBOW => ⟨0.3, 0.4999, 1⟩
  | .RIGHT_ELBOW => ⟨0.7, 0.4999, 1⟩
  | .LEFT_SHOULDER => ⟨0.4, 0.4999, 1⟩
  | .RIGHT_SHOULDER => ⟨0.6, 0.4999, 1⟩
  | .LEFT_HIP => ⟨0.45, 0.8, 1⟩
  | .RIGHT_HIP => ⟨0.55, 0.8, 1⟩
  | .LEFT_KNEE => ⟨0.45, 0.95, 1⟩
  | .RIGHT_KNEE => ⟨0.55, 0.95, 1⟩
  | _ => ⟨0.5, 0.5, 1⟩

/-- T-Pose boundary set with delta exactly 0.1 on the left wrist/elbow
pair (wrist y = 0.4, elbows and shoulders y = 0.5). -/
def lmDelta1000 : LandmarkSet := fun j =>
  match j with
  | .LEFT_WRIST => ⟨0.2, 0.4, 1⟩
  | .RIGHT_WRIST => ⟨0.8, 0.4, 1⟩
  | .LEFT_ELBOW => ⟨0.3, 0.5, 1⟩
  | .RIGHT_ELBOW => ⟨0.7, 0.5, 1⟩
  | .LEFT_SHOULDER => ⟨0.4, 0.5, 1⟩
  | .RIGHT_SHOULDER => ⟨0.6, 0.5, 1⟩
  | .LEFT_HIP => ⟨0.45, 0.8, 1⟩
  | .RIGHT_HIP => ⟨0.55, 0.8, 1⟩
  | .LEFT_KNEE => ⟨0.45, 0.95, 1⟩
  | .RIGHT_KNEE => ⟨0.55, 0.95, 1⟩
  | _ => ⟨0.5, 0.5, 1⟩

/-- Copy of `lmBoth` with every visibility score changed and the nose
moved: agrees with `lmBoth` on the x and y of the ten used joints only. -/
def lmBothNoisy : LandmarkSet := fun j =>
  match j with
  | .LEFT_WRIST => ⟨0.2, 0.3, 0⟩
  | .RIGHT_WRIST => ⟨0.8, 0.3, 0⟩
  | .LEFT_ELBOW => ⟨0.3, 0.35, 0⟩
  | .RIGHT_ELBOW => ⟨0.7, 0.35, 0⟩
  | .LEFT_SHOULDER => ⟨0.4, 0.35, 0⟩
  | .RIGHT_SHOULDER => ⟨0.6, 0.35, 0⟩
  | .LEFT_HIP => ⟨0.45, 0.6, 0⟩
  | .RIGHT_HIP => ⟨0.55, 0.6, 0⟩
  | .LEFT_KNEE => ⟨0.45, 0.8, 0⟩
  | .RIGHT_KNEE => ⟨0.55, 0.8, 0⟩
  | _ => ⟨0.1, 0.9, 0⟩

end PoseDetector

namespace PoseDetector

/-! ## Helper lemmas -/

/-- Only the first branch of the cascade returns `"T-Pose"`: once the
T-Pose condition fails, no other label equals `"T-Pose"`. -/
theorem ne_tpose_of_not_tPoseCond (lm : LandmarkSet) (h : ¬ tPoseCond lm) :
    detect_pose lm ≠ "T-Pose" := by
  unfold detect_pose
  rw [if_neg h]
  split_ifs <;> simp

/-- When all ten branch conditions fail, the cascade falls through to the
`return "Unknown Pose"` on line 111. -/
theorem detect_pose_fallback (lm : LandmarkSet)
    (h1 : ¬ tPoseCond lm) (h2 : ¬ heartCond lm) (h3 : ¬ handsUpCond lm)
    (h4 : ¬ wavingCond lm) (h5 : ¬ foldedHandsCond lm)
    (h6 : ¬ armsCrossedCond lm) (h7 : ¬ bendingDownCond lm)
    (h8 : ¬ sittingCond lm) (h9 : ¬ standingCond lm)
    (h10 : ¬ handsOnHipsCond lm) :
    detect_pose lm = "Unknown Pose" := by
  unfold detect_pose
  rw [if_neg h1, if_neg h2, if_neg h3, if_neg h4, if_neg h5, if_neg h6,
    if_neg h7, if_neg h8, if_neg h9, if_neg h10]

/-! ## Claims -/

/-- C1: for every landmark set in which all ten named joints are present
with rational coordinates, `detect_pose` returns exactly one label from
the fixed 11-label enumeration.  Totality and single-valuedness are
inherent in `detect_pose` being a Lean function into `String`; this
theorem adds that the result always lies in the closed enumeration. -/
theorem detect_pose_total_eleven_labels (lm : LandmarkSet) :
    detect_pose lm ∈ poseLabels := by
  unfold detect_pose poseLabels
  split_ifs <;> simp

/-- C2: on any landmark set satisfying both the T-Pose condition and the
Hands-Up condition, the classifier returns `"T-Pose"` and never
`"Hands Up"` — the first match in the cascade wins. -/
theorem tpose_beats_handsUp (lm : LandmarkSet)
    (ht : tPoseCond lm) (hu : handsUpCond lm) :
    detect_pose lm = "T-Pose" ∧ detect_pose lm ≠ "Hands Up" := by
  have _hu := hu
  unfold detect_pose
  rw [if_pos ht]
  exact ⟨rfl, by simp⟩

/-- Witness for C2: `lmBoth` satisfies both conditions and is classified
`"T-Pose"`. -/
theorem tpose_beats_handsUp_witness :
    detect_pose lmBoth = "T-Pose" ∧ detect_pose lmBoth ≠ "Hands Up" :=
  tpose_beats_handsUp lmBoth
    (by norm_num [tPoseCond, lmBoth, abs_lt])
    (by norm_num [handsUpCond, lmBoth])

/-- C3: whenever none of the ten branch conditions holds, the classifier
returns the fallback label (spelled `"Unknown Pose"` on line 111 of the
source), which belongs to the fixed closed label enumeration. -/
theorem fallback_unknown_of_no_match (lm : LandmarkSet)
    (h1 : ¬ tPoseCond lm) (h2 : ¬ heartCond lm) (h3 : ¬ handsUpCond lm)
    (h4 : ¬ wavingCond lm) (h5 : ¬ foldedHandsCond lm)
    (h6 : ¬ armsCrossedCond lm) (h7 : ¬ bendingDownCond lm)
    (h8 : ¬ sittingCond lm) (h9 : ¬ standingCond lm)
    (h10 : ¬ handsOnHipsCond lm) :
    detect_pose lm = "Unknown Pose" ∧ "Unknown Pose" ∈ poseLabels :=
  ⟨detect_pose_fallback lm h1 h2 h3 h4 h5 h6 h7 h8 h9 h10,
   by simp [poseLabels]⟩

/-- Witness for C3: on `lmNeutral` every branch condition fails and the
classifier returns the fallback label. -/
theorem fallback_unknown_of_no_match_witness :
    detect_pose lmNeutral = "Unknown Pose" ∧ "Unknown Pose" ∈ poseLabels :=
  fallback_unknown_of_no_match lmNeutral
    (by norm_num [tPoseCond, lmNeutral, abs_lt])
    (by norm_num [heartCond, lmNeutral, abs_lt])
    (by norm_num [handsUpCond, lmNeutral])
    (by norm_num [wavingCond, lmNeutral])
    (by norm_num [foldedHandsCond, lmNeutral, abs_lt])
    (by norm_num [armsCrossedCond, lmNeutral])
    (by norm_num [bendingDownCond, avg_shoulder_y, avg_hip_y, avg_knee_y, lmNeutral, abs_le])
    (by norm_num [sittingCond, avg_hip_y, avg_knee_y, lmNeutral, abs_lt])
    (by norm_num [standingCond, lmNeutral, abs_lt])
    (by norm_num [handsOnHipsCond, avg_shoulder_y, avg_hip_y, avg_knee_y, lmNeutral, abs_le])

/-- C4 counterexample: on `lmHeartScope` the T-Pose condition fails and
the Heart condition *as the specification scopes its negation* holds
(`heartSpecCond`), yet the classifier does not return `"Heart"` — it
returns `"Hands Up"`, because the source code negates the two
wrist/elbow alignment comparisons separately and the left one is
aligned, so the code's Heart branch does not fire. -/
theorem heart_spec_scope_counterexample :
    ¬ tPoseCond lmHeartScope ∧ heartSpecCond lmHeartScope ∧
      detect_pose lmHeartScope ≠ "Heart" ∧
      detect_pose lmHeartScope = "Hands Up" := by
  have hd : detect_pose lmHeartScope = "Hands Up" := by
    norm_num [detect_pose, tPoseCond, heartCond, handsUpCond, lmHeartScope, abs_lt]
  refine ⟨?_, ?_, ?_, hd⟩
  · norm_num [tPoseCond, lmHeartScope, abs_lt]
  · norm_num [heartSpecCond, lmHeartScope, abs_lt]
  · rw [hd]; simp

/-- C4 amended: the classifier returns `"Heart"` exactly when the T-Pose
condition fails and the code's Heart condition holds, in which the
negation binds each alignment comparison separately: *each* wrist must be
non-aligned with its own elbow
(`|lwx - lex| ≥ 0.1` and `|rwx - rex| ≥ 0.1`). -/
theorem heart_iff_code_cond (lm : LandmarkSet) :
    detect_pose lm = "Heart" ↔ ¬ tPoseCond lm ∧ heartCond lm := by
  unfold detect_pose
  split_ifs with h1 h2 <;> simp_all

end PoseDetector

namespace PoseDetector

/-- C5 counterexample: `lmHipsAboveKnees` fits the specification's
"neutral case" description (`neutralClaimDescr`: wrists far below elbows,
elbows far below shoulders, hips above knees by a large margin, shoulders
far above hips), yet it *does* match a predicate: hips above knees with
an elongated torso always fires the Hands-on-Hips branch (or the
Bending-Down branch when the torso is compressed), so the classifier
returns `"Hands on Hips"`, not the fallback. -/
theorem neutral_descr_counterexample :
    neutralClaimDescr lmHipsAboveKnees ∧
      detect_pose lmHipsAboveKnees = "Hands on Hips" := by
  constructor
  · norm_num [neutralClaimDescr, avg_shoulder_y, avg_hip_y, avg_knee_y, lmHipsAboveKnees]
  · norm_num [detect_pose, tPoseCond, heartCond, handsUpCond, wavingCond,
      foldedHandsCond, armsCrossedCond, bendingDownCond, sittingCond,
      standingCond, handsOnHipsCond, avg_shoulder_y, avg_hip_y, avg_knee_y,
      lmHipsAboveKnees, abs_lt, abs_le]

/-- C5 amended: a neutral landmark set must keep the average hip height
level with the average knee height (not above it).  Every landmark set
with wrists far below elbows, elbows far below shoulders, average hip y
equal to average knee y, shoulders far above hips, and wrists away from
hip height matches none of predicates 1-10 and is classified with the
fallback label. -/
theorem neutral_fallback_amended (lm : LandmarkSet)
    (h1 : (lm .LEFT_WRIST).y ≥ (lm .LEFT_ELBOW).y + 0.2)
    (h2 : (lm .RIGHT_WRIST).y ≥ (lm .RIGHT_ELBOW).y + 0.2)
    (h3 : (lm .LEFT_ELBOW).y ≥ (lm .LEFT_SHOULDER).y + 0.2)
    (h4 : (lm .RIGHT_ELBOW).y ≥ (lm .RIGHT_SHOULDER).y + 0.2)
    (h5 : avg_hip_y lm = avg_knee_y lm)
    (h6 : avg_shoulder_y lm + 0.2 ≤ avg_hip_y lm)
    (h7 : |(lm .LEFT_WRIST).y - (lm .LEFT_HIP).y| ≥ 0.1) :
    detect_pose lm = "Unknown Pose" := by
  have _keep := And.intro h3 (And.intro h4 h6)
  have n1 : ¬ tPoseCond lm := by
    rintro ⟨c, -, -, -⟩; rw [abs_lt] at c; linarith
  have n2 : ¬ heartCond lm := by
    rintro ⟨-, c, -, -, -, -, -⟩; linarith
  have n3 : ¬ handsUpCond lm := by
    rintro ⟨c, -, -, -⟩; linarith
  have n4 : ¬ wavingCond lm := by
    rintro ⟨c, -⟩
    rcases c with c | c <;> linarith
  have n5 : ¬ foldedHandsCond lm := by
    rintro ⟨-, c, -, -⟩; linarith
  have n6 : ¬ armsCrossedCond lm := by
    rintro ⟨-, -, c, -⟩; linarith
  have n7 : ¬ bendingDownCond lm := by
    rintro ⟨-, c⟩; linarith
  have n8 : ¬ sittingCond lm := by
    rintro ⟨c, -⟩; rw [gt_iff_lt] at c; linarith
  have n9 : ¬ standingCond lm := by
    rintro ⟨c, -, -, -⟩; linarith
  have n10 : ¬ handsOnHipsCond lm := by
    rintro ⟨-, c⟩; linarith
  exact detect_pose_fallback lm n1 n2 n3 n4 n5 n6 n7 n8 n9 n10

/-- Witness for C5 (amended): `lmNeutral` satisfies the amended neutral
description and is classified with the fallback label. -/
theorem neutral_fallback_amended_witness : detect_pose lmNeutral = "Unknown Pose" :=
  neutral_fallback_amended lmNeutral
    (by norm_num [lmNeutral])
    (by norm_num [lmNeutral])
    (by norm_num [lmNeutral])
    (by norm_num [lmNeutral])
    (by norm_num [avg_hip_y, avg_knee_y, lmNeutral])
    (by norm_num [avg_shoulder_y, avg_hip_y, lmNeutral])
    (by rw [ge_iff_le, le_abs]; norm_num [lmNeutral])

/-- C6: the Bending-Down and Sitting conditions are mutually exclusive
(no landmark set satisfies both, since one needs the average hip y below
the average knee y and the other above it), and whenever the Bending-Down
condition holds with no earlier branch (1-6) matching, the cascade
returns `"Bending Down"` — Sitting is never reached. -/
theorem bending_sitting_exclusive_priority :
    (∀ lm : LandmarkSet, ¬ (bendingDownCond lm ∧ sittingCond lm)) ∧
    (∀ lm : LandmarkSet, ¬ tPoseCond lm → ¬ heartCond lm → ¬ handsUpCond lm →
      ¬ wavingCond lm → ¬ foldedHandsCond lm → ¬ armsCrossedCond lm →
      bendingDownCond lm → detect_pose lm = "Bending Down") := by
  constructor
  · rintro lm ⟨⟨-, hb⟩, hs, -⟩
    rw [gt_iff_lt] at hs
    linarith
  · intro lm h1 h2 h3 h4 h5 h6 hb
    unfold detect_pose
    rw [if_neg h1, if_neg h2, if_neg h3, if_neg h4, if_neg h5, if_neg h6, if_pos hb]

/-- Witness for C6: on `lmBend` the Bending-Down condition holds, no
earlier branch matches, and the classifier returns `"Bending Down"`. -/
theorem bending_sitting_exclusive_priority_witness :
    ¬ (bendingDownCond lmBend ∧ sittingCond lmBend) ∧
      detect_pose lmBend = "Bending Down" :=
  ⟨bending_sitting_exclusive_priority.1 lmBend,
   bending_sitting_exclusive_priority.2 lmBend
    (by norm_num [tPoseCond, lmBend, abs_lt])
    (by norm_num [heartCond, lmBend, abs_lt])
    (by norm_num [handsUpCond, lmBend])
    (by norm_num [wavingCond, lmBend])
    (by norm_num [foldedHandsCond, lmBend, abs_lt])
    (by norm_num [armsCrossedCond, lmBend])
    (by constructor <;> norm_num [avg_shoulder_y, avg_hip_y, avg_knee_y, lmBend, abs_le])⟩

/-- C7: the T-Pose branch compares each vertical delta with a strict
`< 0.1`: deltas of exactly 0.0999 on every required pair classify as
`"T-Pose"`, while a delta of 0.1 or more on any one of the four required
pairs rules `"T-Pose"` out. -/
theorem tpose_strict_threshold :
    (∀ lm : LandmarkSet,
      |(lm .LEFT_WRIST).y - (lm .LEFT_ELBOW).y| = 0.0999 →
      |(lm .RIGHT_WRIST).y - (lm .RIGHT_ELBOW).y| = 0.0999 →
      |(lm .LEFT_WRIST).y - (lm .LEFT_SHOULDER).y| = 0.0999 →
      |(lm .RIGHT_WRIST).y - (lm .RIGHT_SHOULDER).y| = 0.0999 →
      detect_pose lm = "T-Pose") ∧
    (∀ lm : LandmarkSet,
      (0.1 ≤ |(lm .LEFT_WRIST).y - (lm .LEFT_ELBOW).y| ∨
       0.1 ≤ |(lm .RIGHT_WRIST).y - (lm .RIGHT_ELBOW).y| ∨
       0.1 ≤ |(lm .LEFT_WRIST).y - (lm .LEFT_SHOULDER).y| ∨
       0.1 ≤ |(lm .RIGHT_WRIST).y - (lm .RIGHT_SHOULDER).y|) →
      detect_pose lm ≠ "T-Pose") := by
  constructor
  · intro lm e1 e2 e3 e4
    have ht : tPoseCond lm := by
      unfold tPoseCond
      rw [e1, e2, e3, e4]
      norm_num
    unfold detect_pose
    rw [if_pos ht]
  · intro lm hd
    apply ne_tpose_of_not_tPoseCond
    rintro ⟨c1, c2, c3, c4⟩
    rcases hd with h | h | h | h <;> linarith

/-- Witness for C7: `lmDelta0999` (all deltas 0.0999) is `"T-Pose"`, and
`lmDelta1000` (left wrist/elbow delta exactly 0.1) is not. -/
theorem tpose_strict_threshold_witness :
    detect_pose lmDelta0999 = "T-Pose" ∧ detect_pose lmDelta1000 ≠ "T-Pose" :=
  ⟨tpose_strict_threshold.1 lmDelta0999
    (by rw [show ((lmDelta0999 .LEFT_WRIST).y - (lmDelta0999 .LEFT_ELBOW).y : ℚ) = -0.0999 by norm_num [lmDelta0999]]
        rw [abs_neg, abs_of_nonneg] ; norm_num)
    (by rw [show ((lmDelta0999 .RIGHT_WRIST).y - (lmDelta0999 .RIGHT_ELBOW).y : ℚ) = -0.0999 by norm_num [lmDelta0999]]
        rw [abs_neg, abs_of_nonneg] ; norm_num)
    (by rw [show ((lmDelta0999 .LEFT_WRIST).y - (lmDelta0999 .LEFT_SHOULDER).y : ℚ) = -0.0999 by norm_num [lmDelta0999]]
        rw [abs_neg, abs_of_nonneg] ; norm_num)
    (by rw [show ((lmDelta0999 .RIGHT_WRIST).y - (lmDelta0999 .RIGHT_SHOULDER).y : ℚ) = -0.0999 by norm_num [lmDelta0999]]
        rw [abs_neg, abs_of_nonneg] ; norm_num),
   tpose_strict_threshold.2 lmDelta1000
    (Or.inl (by rw [le_abs]; norm_num [lmDelta1000]))⟩

/-- C8: what the code actually does on a failed read.  When `cap.read()`
reports failure, `update_frame` returns at line 116: it skips
classification and display for that tick, but it also returns *before*
the `label.after(10, update_frame)` call on line 162, so no further tick
is ever scheduled — a single failed read permanently stops the frame
loop, contrary to the specification's "retry next tick; never fatal". -/
theorem update_frame_failed_read (p : Option LandmarkSet) :
    update_frame false p = ⟨none, false, false⟩ := rfl

/-- C9: the fallback label is returned only when the average hip y is at
or below the average knee y; conversely, whenever hips are strictly above
knees (average hip y < average knee y) the Bending-Down and Hands-on-Hips
conditions together cover the case, so some branch fires and the fallback
is never returned. -/
theorem unknown_fallback_hips_below_knees :
    (∀ lm : LandmarkSet, detect_pose lm = "Unknown Pose" →
      avg_knee_y lm ≤ avg_hip_y lm) ∧
    (∀ lm : LandmarkSet, avg_hip_y lm < avg_knee_y lm →
      detect_pose lm ≠ "Unknown Pose") := by
  have key : ∀ lm : LandmarkSet, avg_hip_y lm < avg_knee_y lm →
      detect_pose lm ≠ "Unknown Pose" := by
    intro lm hlt
    unfold detect_pose
    split_ifs with h1 h2 h3 h4 h5 h6 h7 h8 h9 h10 <;> try simp
    rcases le_or_lt |avg_shoulder_y lm - avg_hip_y lm| 0.2 with hc | hc
    · exact h7 ⟨hc, hlt⟩
    · exact h10 ⟨hc, hlt⟩
  refine ⟨fun lm h => ?_, key⟩
  by_contra hc
  push_neg at hc
  exact key lm hc h

/-- Witness for C9: `lmNeutral` is classified with the fallback label,
and indeed its average knee y does not exceed its average hip y. -/
theorem unknown_fallback_hips_below_knees_witness :
    avg_knee_y lmNeutral ≤ avg_hip_y lmNeutral :=
  unknown_fallback_hips_below_knees.1 lmNeutral
    (by norm_num [detect_pose, tPoseCond, heartCond, handsUpCond, wavingCond,
      foldedHandsCond, armsCrossedCond, bendingDownCond, sittingCond,
      standingCond, handsOnHipsCond, avg_shoulder_y, avg_hip_y, avg_knee_y,
      lmNeutral, abs_lt, abs_le])

/-- C10: the classification depends only on the x and y coordinates of
the ten joints the cascade reads — two landmark sets agreeing there get
the same label regardless of visibility scores and of every other
joint's coordinates. -/
theorem detect_pose_xy_only (lm1 lm2 : LandmarkSet)
    (h : ∀ j ∈ usedJoints, (lm1 j).x = (lm2 j).x ∧ (lm1 j).y = (lm2 j).y) :
    detect_pose lm1 = detect_pose lm2 := by
  have hlw := h .LEFT_WRIST (by simp [usedJoints])
  have hrw := h .RIGHT_WRIST (by simp [usedJoints])
  have hle := h .LEFT_ELBOW (by simp [usedJoints])
  have hre := h .RIGHT_ELBOW (by simp [usedJoints])
  have hls := h .LEFT_SHOULDER (by simp [usedJoints])
  have hrs := h .RIGHT_SHOULDER (by simp [usedJoints])
  have hlh := h .LEFT_HIP (by simp [usedJoints])
  have hrh := h .RIGHT_HIP (by simp [usedJoints])
  have hlk := h .LEFT_KNEE (by simp [usedJoints])
  have hrk := h .RIGHT_KNEE (by simp [usedJoints])
  unfold detect_pose tPoseCond heartCond handsUpCond wavingCond
    foldedHandsCond armsCrossedCond bendingDownCond sittingCond standingCond
    handsOnHipsCond avg_shoulder_y avg_hip_y avg_knee_y
  simp only [hlw.1, hlw.2, hrw.1, hrw.2, hle.1, hle.2, hre.1, hre.2,
    hls.1, hls.2, hrs.1, hrs.2, hlh.1, hlh.2, hrh.1, hrh.2,
    hlk.1, hlk.2, hrk.1, hrk.2]

/-- Witness for C10: `lmBothNoisy` differs from `lmBoth` in every
visibility score and in the coordinates of the unused joints, yet the
two receive the same label. -/
theorem detect_pose_xy_only_witness :
    detect_pose lmBoth = detect_pose lmBothNoisy :=
  detect_pose_xy_only lmBoth lmBothNoisy
    (by intro j hj; fin_cases hj <;> exact ⟨rfl, rfl⟩)

end PoseDetector
